import Mathlib

/-!
Verification of the refuge (region) conflict-resolution engine of
src/app.py against its natural-language specification.

Modelling conventions.  The application manipulates planar polygonal
geometry through shapely/GEOS primitives.  We embed that geometry as
rectilinear cell regions: a geometry is the finite set of unit grid cells
(elements of ℤ × ℤ) that it covers.  Under this embedding

  * union / difference / intersection of geometries are the corresponding
    finite-set operations;
  * the area of a geometry is its number of cells, so "empty or
    non-positive area" is exactly "the empty set";
  * every geometry is a valid polygonal geometry, so shapely validity
    repair (make_valid, buffer(0)) is the identity and the repair /
    retry / exception branches of the Python code are unreachable (they
    are noted where they occur in the translations below);
  * the member polygons of a (Multi)Polygon are the edge-connected
    components of its cell set: cells sharing an edge belong to one
    polygon, cells meeting only at a corner belong to different member
    polygons (the OGC-valid regularized form GEOS produces);
  * two geometries touch when they are disjoint but have cells meeting
    along an edge or at a corner (boundary contact without interior
    overlap), and intersect when they share a cell or touch: under the
    closed-cell embedding shapely .intersects is true as soon as the
    closed regions meet, so touching geometries also intersect.

All application-level functions (the Flask endpoint bodies and the
geometry helpers of src/app.py) are translated from the source over these
primitives.  Persistence is modelled by threading the persisted refuge
collection ("disk") through each endpoint together with a flag saying
whether the physical write succeeds.
-/

/-- A cell of the integer grid. -/
abbrev Cell : Type := ℤ × ℤ

/-- A polygonal geometry: the finite set of unit grid cells it covers. -/
abbrev Geom : Type := Finset Cell

/-- Two cells share an edge: their closed unit squares meet along a
segment, so they belong to the same member polygon. -/
def adj4 (a b : Cell) : Bool :=
  (a.1 == b.1 && (a.2 == b.2 + 1 || b.2 == a.2 + 1)) ||
  (a.2 == b.2 && (a.1 == b.1 + 1 || b.1 == a.1 + 1))

/-- Two distinct cells whose closed unit squares meet (edge or corner
contact). -/
def adj8 (a b : Cell) : Bool :=
  !(a == b) && decide ((a.1 - b.1).natAbs ≤ 1) && decide ((a.2 - b.2).natAbs ≤ 1)

/-- A linear order on cells used to enumerate a finite cell set
deterministically (the enumeration order of a shapely geometry is an
implementation detail; no proved property depends on it). -/
def cellLe (a b : Cell) : Prop := a.1 < b.1 ∨ (a.1 = b.1 ∧ a.2 ≤ b.2)

instance : DecidableRel cellLe := fun a b => by
  unfold cellLe; exact inferInstance

instance : IsTrans Cell cellLe := by
  refine ⟨fun a b c h1 h2 => ?_⟩
  unfold cellLe at *; omega

instance : IsAntisymm Cell cellLe := by
  refine ⟨fun a b h1 h2 => ?_⟩
  rcases a with ⟨a1, a2⟩; rcases b with ⟨b1, b2⟩
  unfold cellLe at *
  simp only [Prod.mk.injEq]
  omega

instance : IsTotal Cell cellLe := by
  refine ⟨fun a b => ?_⟩
  unfold cellLe; omega

/-- The cells of a geometry, as a deterministically ordered list
(insertion sort is structurally recursive, so this enumeration computes
by kernel reduction). -/
def cellsOf (g : Geom) : List Cell :=
  Quot.liftOn g.1 (fun l => List.insertionSort cellLe l) (fun l1 l2 h =>
    List.eq_of_perm_of_sorted
      ((List.perm_insertionSort cellLe l1).trans
        (h.trans (List.perm_insertionSort cellLe l2).symm))
      (List.sorted_insertionSort cellLe l1)
      (List.sorted_insertionSort cellLe l2))

/-- One breadth step of component tracing: adjoin to the front `s` every
cell of `g` that is edge-adjacent to `s`. -/
def grow (g : Geom) (s : Geom) : Geom :=
  s ∪ g.filter (fun c => (cellsOf s).any (fun d => adj4 c d))

/-- Iterated breadth steps. -/
def growIter (g : Geom) : ℕ → Geom → Geom
  | 0, s => s
  | n + 1, s => growIter g n (grow g s)

/-- The member polygon (edge-connected component) of `g` containing the
cell `c`.  `g.card` breadth steps always suffice. -/
def componentOf (g : Geom) (c : Cell) : Geom := growIter g g.card {c}

/-- Worker for `components`, peeling one component per fuel unit. -/
def compsAux : ℕ → Geom → List Geom
  | 0, _ => []
  | n + 1, g =>
      match (cellsOf g).head? with
      | none => []
      | some c =>
          let comp := componentOf g c
          comp :: compsAux n (g \ comp)

/-- The member polygons of a geometry: its edge-connected components. -/
def components (g : Geom) : List Geom := compsAux g.card g

/-- Translation of _count_components (src/app.py lines 611-638): the
number of polygonal components.  A nonempty single-component geometry is
a shapely Polygon (counted as 1, line 623); a multi-component geometry is
a MultiPolygon whose nonempty member polygons are counted (lines
624-629); the empty geometry counts 0 (lines 616-617). -/
def count_components (g : Geom) : ℕ := (components g).length

/-- shapely .intersects: the closed regions meet — the two geometries
share a cell, or cells of the two meet along an edge or at a corner.
Touching geometries therefore also intersect, as in shapely, where
touches implies intersects. -/
def intersectsB (a b : Geom) : Bool :=
  decide ((a ∩ b).Nonempty) ||
  (cellsOf a).any (fun c => (cellsOf b).any (fun d => adj8 c d))

/-- shapely .touches: disjoint geometries with boundary contact (edge or
corner adjacency between their cells). -/
def touchesB (a b : Geom) : Bool :=
  decide (a ∩ b = ∅) && (cellsOf a).any (fun c => (cellsOf b).any (fun d => adj8 c d))

/-- shapely .covers: the second geometry lies entirely inside the first. -/
def coversB (a b : Geom) : Bool := decide (b ⊆ a)

/-- Squared Euclidean distance between two cells. -/
def distSqPt (a b : Cell) : ℤ := (a.1 - b.1) * (a.1 - b.1) + (a.2 - b.2) * (a.2 - b.2)

/-- Minimum of a list of integers, none on the empty list. -/
def listMinZ : List ℤ → Option ℤ
  | [] => none
  | x :: xs =>
      match listMinZ xs with
      | none => some x
      | some m => some (min x m)

/-- shapely .distance between a geometry and a point, squared: 0 when the
point is a cell of the geometry, otherwise the least squared distance to
one of its cells (0 as junk on the empty geometry, which no caller
reaches). -/
def geomDistSq (g : Geom) (p : Cell) : ℤ :=
  (listMinZ ((cellsOf g).map (fun c => distSqPt c p))).getD 0

/-!  Data model: stored GeoJSON objects, refuges, HTTP responses, and the
persisted collection ("disk") threaded through every endpoint.  -/

/-- A GeoJSON geometry object as the application sees it: its "type" tag,
the cell region its coordinates denote, and (used only by create) the
first vertex coordinates[0][0] of the input ring, none when the
coordinate structure would make that lookup raise.  Empty coordinates
(falsy in Python) denote the empty region. -/
structure GeoJSON where
  gtype : String
  coords : Geom
  firstVertex : Option Cell
  deriving DecidableEq

/-- Truthiness of the coordinates field: empty coordinates are falsy. -/
def GeoJSON.coordsTruthy (p : GeoJSON) : Bool := !decide (p.coords = ∅)

/-- A whitespace character as Python str.strip sees it. -/
def isPySpace (c : Char) : Bool := c == ' ' || c == '\t' || c == '\n' || c == '\r'

/-- Python str.strip: leading and trailing whitespace removed (structural
over the character list, so it computes by kernel reduction). -/
def pyStrip (s : String) : String :=
  ⟨((s.data.dropWhile isPySpace).reverse.dropWhile isPySpace).reverse⟩

/-- Python str.lower for the ASCII strings the application compares. -/
def pyLower (s : String) : String := ⟨s.data.map Char.toLower⟩

/-- A stored refuge record.  id and name can be absent or of the wrong
type in the JSON file, hence the options. -/
structure Refuge where
  id : Option ℤ
  name : Option String
  polygon : Option GeoJSON
  deriving DecidableEq

/-- An HTTP response: status code, success flag (the "status" field of
the JSON body), message, and the optional machine-readable "code". -/
structure Resp where
  httpStatus : ℕ
  ok : Bool
  message : String
  code : Option String
  deriving DecidableEq

/-- An error response with no machine-readable code. -/
def errResp (s : ℕ) (m : String) : Resp := ⟨s, false, m, none⟩

/-- A success response. -/
def okResp (s : ℕ) (m : String) : Resp := ⟨s, true, m, none⟩

/-- The observable outcome of one endpoint call: the response, the
persisted collection after the call, and the refuge record the response
body carries (none for error responses). -/
structure Outcome where
  resp : Resp
  disk : List Refuge
  refuge : Option Refuge
  deriving DecidableEq

/-- Translation of _write_refuges (src/app.py lines 166-184).  The write
goes to a temporary file which atomically replaces the previous one
(lines 173-177), so a failed write leaves the previous persisted
contents.  Every exception is caught, logged and swallowed (lines
178-184), so the call never raises to the endpoint: the second component
(did an exception escape to the caller) is always false. -/
def write_refuges (disk newRefuges : List Refuge) (writeOk : Bool) :
    List Refuge × Bool :=
  if writeOk then (newRefuges, false) else (disk, false)

/-!  Geometry helpers of src/app.py.  -/

/-- Translation of _make_valid_polygonal (lines 498-540).  Cell-model
geometries are always valid polygonal geometries, so the make_valid /
buffer(0) repair (lines 502-516) and the collection-flattening branch
(lines 518-540) are the identity here. -/
def make_valid_polygonal (g : Geom) : Geom := g

/-- Translation of _safe_difference (lines 593-608): set difference.  The
direct difference never fails in the model, so the buffered retry and the
overlay fallback (lines 596-608) are unreachable. -/
def safe_difference (a b : Geom) : Geom := a \ b

/-- Translation of _safe_unary_union (lines 543-591).  None/empty inputs
are dropped and survivors normalized (identity) (lines 544-558); an empty
survivor list yields the empty geometry (560-561); a single survivor is
returned as-is (562-563); otherwise the bulk union (565-569), which never
fails in the model, so the pairwise-folding fallback (570-591) is
unreachable. -/
def safe_unary_union (gs : List Geom) : Geom :=
  match gs.filter (fun g => !decide (g = ∅)) with
  | [] => ∅
  | [g] => g
  | g :: rest => (g :: rest).foldl (fun acc x => acc ∪ x) ∅

/-- shapely.geometry.mapping back to a GeoJSON object: the type tag is
Polygon for a single-component geometry and MultiPolygon for a
multi-component one; the coordinates denote the same region; computed
geometries carry no recorded first vertex. -/
def shapely_mapping (g : Geom) : GeoJSON :=
  ⟨if count_components g ≤ 1 then "Polygon" else "MultiPolygon", g, none⟩

/-- First stored refuge whose id is an integer equal to the given one
(the lookup loop used by all per-refuge endpoints). -/
def findById : List Refuge → ℤ → Option Refuge
  | [], _ => none
  | r :: rs, i => if r.id = some i then some r else findById rs i

/-- Replace the first stored refuge whose id is the given one (models
writing back through the found index, refuges[target_idx] = target). -/
def setById : List Refuge → ℤ → Refuge → List Refuge
  | [], _, _ => []
  | r :: rs, i, t => if r.id = some i then t :: rs else r :: setById rs i t

/-- Worker for _subtract_overlay_from_other_refuges: the per-refuge loop
of lines 661-717, returning the updated list and the removed ids. -/
def crossSubtractGo (targetId : Option ℤ) (overlay : Geom) :
    List Refuge → List Refuge × List ℤ
  | [] => ([], [])
  | r :: rs =>
      let rest := crossSubtractGo targetId overlay rs
      -- line 666-669: the target refuge is passed through untouched
      if r.id = targetId then (r :: rest.1, rest.2)
      else
        match r.polygon with
        -- lines 671-674: refuges without a (Multi)Polygon pass through
        | none => (r :: rest.1, rest.2)
        | some p =>
          if p.gtype = "Polygon" ∨ p.gtype = "MultiPolygon" then
            -- lines 676-681: parsing/repair cannot fail in the model
            let geom := make_valid_polygonal p.coords
            -- lines 683-685: empty or non-intersecting refuges pass through
            if geom = ∅ ∨ intersectsB geom overlay = false then (r :: rest.1, rest.2)
            else
              let newGeom := make_valid_polygonal (safe_difference geom overlay)
              -- lines 695-699: consumed refuges are dropped and recorded
              if newGeom = ∅ then
                match r.id with
                | some i => (rest.1, i :: rest.2)
                | none => (rest.1, rest.2)
              else
                -- lines 701-717: the result is always polygonal and
                -- serializable in the model; store the new geometry
                ({ r with polygon := some (shapely_mapping newGeom) } :: rest.1, rest.2)
          else (r :: rest.1, rest.2)

/-- Translation of _subtract_overlay_from_other_refuges (lines 641-719). -/
def subtract_overlay_from_other_refuges (refuges : List Refuge)
    (targetId : Option ℤ) (overlay0 : Option Geom) : List Refuge × List ℤ :=
  match overlay0 with
  | none => (refuges, [])                                  -- lines 647-648
  | some ov0 =>
      let overlay := make_valid_polygonal ov0              -- lines 650-653
      if overlay = ∅ then (refuges, [])                    -- lines 655-656
      else crossSubtractGo targetId overlay refuges

/-!  The create endpoint (POST /api/refuges, lines 733-895).  -/

/-- The id assigned to a newly created refuge (line 883): one more than
the id of the last stored entry when the collection is nonempty and that
entry has an integer id, else 1. -/
def nextId (refuges : List Refuge) : ℤ :=
  match refuges.getLast? with
  | some r =>
      match r.id with
      | some i => i + 1
      | none => 1
  | none => 1

/-- The existing-refuge geometries collected by create (lines 761-774):
stored (Multi)Polygon objects, parsed and repaired, empty ones skipped. -/
def existingGeoms : List Refuge → List Geom
  | [] => []
  | r :: rs =>
      match r.polygon with
      | some p =>
          if p.gtype = "Polygon" ∨ p.gtype = "MultiPolygon" then
            let g := make_valid_polygonal p.coords
            if g = ∅ then existingGeoms rs else g :: existingGeoms rs
          else existingGeoms rs
      | none => existingGeoms rs

/-- The fully-contained refuge geometries (lines 776-791): the existing
geometries the candidate covers.  The buffered covers retry of lines
781-791 is the identity in the model. -/
def containedGeoms (refuges : List Refuge) (newGeom : Geom) : List Geom :=
  (existingGeoms refuges).filter (fun g => coversB newGeom g)

/-- The carve-and-subtract pipeline of create (lines 796-835): subtract
the union of the fully-contained refuges first (799-814), then the union
of all existing refuges (815-822), then each existing refuge once more
sequentially (the robust fallback of lines 824-833, which the code always
runs). -/
def create_geometry (refuges : List Refuge) (newGeom : Geom) : Geom :=
  let contained := containedGeoms refuges newGeom
  let existing := existingGeoms refuges
  let r1 :=
    match contained with
    | [] => newGeom
    | _ =>
        let cu := safe_unary_union contained
        if cu = ∅ then newGeom else safe_difference newGeom cu
  match existing with
  | [] => r1
  | _ =>
      let eu := safe_unary_union existing
      let rA := safe_difference r1 eu
      existing.foldl (fun acc eg => if acc = ∅ then acc else safe_difference acc eg) rA

/-- The first component containing the first vertex (lines 855-859).  The
shapely test contains-or-boundary-distance-below-epsilon is cell
membership in the model. -/
def firstContaining (comps : List Geom) (p : Cell) : Option Geom :=
  comps.find? (fun c => decide (p ∈ c))

/-- The nearest-component loop of lines 862-868: running best component,
replaced when a strictly smaller distance is seen. -/
def pickNearestGo (p : Cell) : Option Geom → List Geom → Option Geom
  | best, [] => best
  | none, poly :: rest => pickNearestGo p (some poly) rest
  | some b, poly :: rest =>
      if geomDistSq poly p < geomDistSq b p then pickNearestGo p (some poly) rest
      else pickNearestGo p (some b) rest

/-- Nearest component to a point (initial best: none, distance infinity). -/
def pickNearest (comps : List Geom) (p : Cell) : Option Geom :=
  pickNearestGo p none comps

/-- Component selection for a MultiPolygon create result (lines 846-877):
the first component containing the first vertex, else the nearest one. -/
def create_select (comps : List Geom) (p : Cell) : Option Geom :=
  match firstContaining comps p with
  | some k => some k
  | none => pickNearest comps p

/-- The request body of create. -/
structure CreatePayload where
  name : Option String
  polygon : Option GeoJSON
  deriving DecidableEq

/-- Translation of create_refuge (lines 733-895). -/
def create_refuge (disk : List Refuge) (payload : CreatePayload)
    (writeOk : Bool) : Outcome :=
  -- lines 738-740: the polygon syntax check runs first
  match payload.polygon with
  | none => ⟨errResp 400 "Invalid polygon", disk, none⟩
  | some polygon =>
    if polygon.gtype = "Polygon" ∧ polygon.coordsTruthy = true then
      -- line 742: the stored collection is read
      let refuges := disk
      -- lines 744-746: name required
      let incomingName := pyStrip (payload.name.getD "")
      if incomingName = "" then ⟨errResp 400 "Name is required", disk, none⟩
      else
        -- lines 747-749: case-insensitive uniqueness
        if refuges.any (fun r => pyLower (pyStrip (r.name.getD "")) == pyLower incomingName) then
          ⟨errResp 409 "A refuge with this name already exists", disk, none⟩
        else
          -- lines 752-758: parse (never fails in the model) and repair
          let newGeom := make_valid_polygonal polygon.coords
          -- lines 761-835: carve contained refuges, subtract all overlaps
          let resultGeom := create_geometry refuges newGeom
          -- line 838: empty or non-positive area
          if resultGeom = ∅ then
            ⟨errResp 400 "Refuge overlaps existing areas completely; nothing to save", disk, none⟩
          else
            -- lines 841-844: the result is always polygonal in the model
            -- lines 846-877: MultiPolygon component selection
            let finalGeom : Option Geom :=
              if count_components resultGeom > 1 then
                match polygon.firstVertex with
                -- lines 875-877: first-vertex extraction raised; keep the
                -- full MultiPolygon
                | none => some resultGeom
                | some fv =>
                    match create_select (components resultGeom) fv with
                    | some k => if k = ∅ then none else some k
                    | none => none
              else some resultGeom
            match finalGeom with
            | none =>
                ⟨errResp 400 "Could not determine which part to keep after subtraction", disk, none⟩
            | some fg =>
                -- lines 880-892: serialize, assign id, append, persist
                let newRefuge : Refuge :=
                  ⟨some (nextId refuges), some incomingName, some (shapely_mapping fg)⟩
                let w := write_refuges disk (refuges ++ [newRefuge]) writeOk
                if w.2 then ⟨errResp 500 "Failed to create refuge", w.1, none⟩
                else ⟨okResp 201 "success", w.1, some newRefuge⟩
    else ⟨errResp 400 "Invalid polygon", disk, none⟩

/-!  The delete endpoint (DELETE /api/refuges/{id}, lines 933-951).  -/

/-- Remove the first refuge with the given integer id, returning it and
the remaining list (the enumerate/pop of lines 938-946). -/
def removeFirstById : List Refuge → ℤ → Option (Refuge × List Refuge)
  | [], _ => none
  | r :: rs, i =>
      if r.id = some i then some (r, rs)
      else
        match removeFirstById rs i with
        | none => none
        | some (d, rest) => some (d, r :: rest)

/-- Translation of delete_refuge (lines 933-951). -/
def delete_refuge (disk : List Refuge) (rid : ℤ) (writeOk : Bool) : Outcome :=
  match removeFirstById disk rid with
  | none => ⟨errResp 404 "Refuge not found", disk, none⟩
  | some (removed, rest) =>
      let w := write_refuges disk rest writeOk
      if w.2 then ⟨errResp 500 "Failed to delete refuge", w.1, none⟩
      else ⟨okResp 200 "success", w.1, some removed⟩

/-!  The subtract endpoint (POST /api/refuges/{id}/subtract, lines
1105-1185).  -/

/-- The overlay-parsing loop shared by adjoin and subtract (lines 988-998
and 1139-1149): keep overlays that are syntactically Polygons with truthy
coordinates; parsing and the buffer(0) repair never fail in the model. -/
def parsePolygonOverlays : List GeoJSON → List Geom
  | [] => []
  | o :: rest =>
      if o.gtype = "Polygon" ∧ o.coordsTruthy = true then
        o.coords :: parsePolygonOverlays rest
      else parsePolygonOverlays rest

/-- Translation of subtract_overlays (lines 1105-1185).  Note that no
fragmentation check appears between the area check (line 1164) and the
commit (lines 1170-1182). -/
def subtract_overlays (disk : List Refuge) (rid : ℤ) (overlays : List GeoJSON)
    (writeOk : Bool) : Outcome :=
  -- lines 1112-1113
  if overlays.isEmpty then ⟨errResp 400 "No overlays provided", disk, none⟩
  else
    -- lines 1117-1127
    match findById disk rid with
    | none => ⟨errResp 404 "Refuge not found", disk, none⟩
    | some target =>
      -- lines 1129-1136
      match target.polygon with
      | none => ⟨errResp 500 "Stored refuge geometry is invalid", disk, none⟩
      | some tp =>
        let currentGeom := make_valid_polygonal tp.coords
        if currentGeom = ∅ then ⟨errResp 500 "Stored refuge geometry is empty", disk, none⟩
        else
          -- lines 1138-1152
          match parsePolygonOverlays overlays with
          | [] => ⟨errResp 400 "No valid overlays to subtract", disk, none⟩
          | og :: ogs =>
            -- lines 1154-1165: sequential difference, then the area check
            let resultGeom :=
              (og :: ogs).foldl (fun acc o => safe_difference acc o) currentGeom
            if resultGeom = ∅ then
              ⟨errResp 400 "Subtraction would remove entire refuge", disk, none⟩
            else
              -- lines 1170-1182: serialize, store, persist, succeed
              let target2 : Refuge := { target with polygon := some (shapely_mapping resultGeom) }
              let w := write_refuges disk (setById disk rid target2) writeOk
              if w.2 then ⟨errResp 500 "Failed to subtract overlays", w.1, none⟩
              else ⟨okResp 200 "success", w.1, some target2⟩

/-!  The adjoin endpoint (POST /api/refuges/{id}/adjoin, lines 954-1102)
and the combined apply endpoint (lines 1248-1453).  -/

/-- The unrelated (non-target) refuge geometries (lines 1005-1015 and
1300-1311). -/
def unrelatedGeoms (rid : ℤ) : List Refuge → List Geom
  | [] => []
  | r :: rs =>
      match r.id, r.polygon with
      | some i, some p =>
          if i ≠ rid ∧ (p.gtype = "Polygon" ∨ p.gtype = "MultiPolygon") then
            let g := make_valid_polygonal p.coords
            if g = ∅ then unrelatedGeoms rid rs else g :: unrelatedGeoms rid rs
          else unrelatedGeoms rid rs
      | _, _ => unrelatedGeoms rid rs

/-- Cleaning the overlays against the union of the unrelated refuges
(lines 1017-1038 and 1313-1334): subtract the union from each overlay and
drop overlays that become empty; the per-overlay exception fallback that
keeps the raw overlay is unreachable in the model. -/
def cleanOverlays (overlayGeoms unrelated : List Geom) : List Geom :=
  match unrelated with
  | [] => overlayGeoms
  | _ =>
      let u := safe_unary_union unrelated
      if u = ∅ then overlayGeoms
      else
        overlayGeoms.filterMap (fun og =>
          let c := make_valid_polygonal (safe_difference og u)
          if c = ∅ then none else some c)

/-- Re-find the target after the cross-refuge subtraction and write it
back, appending when it is gone (lines 1083-1093 and 1437-1446). -/
def restoreTarget (refuges : List Refuge) (rid : ℤ) (target : Refuge) : List Refuge :=
  match findById refuges rid with
  | some _ => setById refuges rid target
  | none => refuges ++ [target]

/-- Translation of adjoin_overlays (lines 954-1102).  Note that the union
result is committed as it is: the connectivity filter exists only in
apply_overlay_changes (lines 1359-1391). -/
def adjoin_overlays (disk : List Refuge) (rid : ℤ) (overlays : List GeoJSON)
    (writeOk : Bool) : Outcome :=
  -- lines 961-962
  if overlays.isEmpty then ⟨errResp 400 "No overlays provided", disk, none⟩
  else
    -- lines 966-976
    match findById disk rid with
    | none => ⟨errResp 404 "Refuge not found", disk, none⟩
    | some target =>
      -- lines 978-985
      match target.polygon with
      | none => ⟨errResp 500 "Stored refuge geometry is invalid", disk, none⟩
      | some tp =>
        let currentGeom := make_valid_polygonal tp.coords
        if currentGeom = ∅ then ⟨errResp 500 "Stored refuge geometry is empty", disk, none⟩
        else
          -- lines 987-1001
          match parsePolygonOverlays overlays with
          | [] => ⟨errResp 400 "No valid overlays to adjoin", disk, none⟩
          | og :: ogs =>
            -- lines 1003-1041
            let overlayGeoms := cleanOverlays (og :: ogs) (unrelatedGeoms rid disk)
            if overlayGeoms.isEmpty then
              ⟨errResp 400 "All overlays completely overlap with other refuges", disk, none⟩
            else
              -- lines 1043-1056: union everything; validity repair is the
              -- identity; no connectivity filtering happens here
              let resultGeom := safe_unary_union (currentGeom :: overlayGeoms)
              if resultGeom = ∅ then ⟨errResp 400 "Resulting geometry is empty", disk, none⟩
              else
                -- lines 1058-1067
                let target2 : Refuge := { target with polygon := some (shapely_mapping resultGeom) }
                let refuges1 := setById disk rid target2
                -- lines 1069-1093: cross-refuge subtraction of the applied
                -- overlay union, then re-find and restore the target
                let overlaysUnion := make_valid_polygonal (safe_unary_union overlayGeoms)
                let refuges2 :=
                  if overlaysUnion = ∅ then refuges1
                  else
                    restoreTarget
                      (subtract_overlay_from_other_refuges refuges1 target2.id (some overlaysUnion)).1
                      rid target2
                -- lines 1097-1099
                let w := write_refuges disk refuges2 writeOk
                if w.2 then ⟨errResp 500 "Failed to adjoin overlays", w.1, none⟩
                else ⟨okResp 200 "success", w.1, some target2⟩

/-!  The dry-run validation endpoint (POST
/api/refuges/{id}/validate-overlay, lines 1188-1245).  -/

/-- The request body of validate-overlay. -/
structure ValidatePayload where
  overlay : Option GeoJSON
  operation : Option String
  deriving DecidableEq

/-- Translation of validate_overlay_operation (lines 1188-1245).  The
body contains no write call, so the persisted collection comes back
unchanged on every path. -/
def validate_overlay_operation (disk : List Refuge) (rid : ℤ)
    (payload : ValidatePayload) : Outcome :=
  -- line 1194: the operation string is stripped and lowercased
  let operation := pyLower (pyStrip (payload.operation.getD ""))
  -- lines 1196-1197: checked before the stored collection is read
  if operation ≠ "subtract" then ⟨errResp 400 "Unsupported operation", disk, none⟩
  else
    -- lines 1199-1200
    match payload.overlay with
    | none => ⟨errResp 400 "Invalid overlay geometry", disk, none⟩
    | some op =>
      if op.gtype = "Polygon" ∨ op.gtype = "MultiPolygon" then
        -- lines 1202-1210
        match findById disk rid with
        | none => ⟨errResp 404 "Refuge not found", disk, none⟩
        | some target =>
          -- lines 1212-1218
          match target.polygon with
          | none => ⟨errResp 500 "Stored refuge geometry is invalid", disk, none⟩
          | some tp =>
            let currentGeom := make_valid_polygonal tp.coords
            if currentGeom = ∅ then
              ⟨errResp 500 "Stored refuge geometry is empty", disk, none⟩
            else
              -- lines 1220-1226
              let overlayGeom := make_valid_polygonal op.coords
              if overlayGeom = ∅ then ⟨errResp 400 "Overlay has no area", disk, none⟩
              else
                -- lines 1228-1233
                let resultGeom :=
                  make_valid_polygonal (safe_difference currentGeom overlayGeom)
                if resultGeom = ∅ then
                  ⟨errResp 400 "Overlay subtraction would remove entire refuge", disk, none⟩
                else
                  -- lines 1235-1240: the fragmentation rejection
                  if count_components resultGeom > 1 then
                    ⟨⟨400, false, "Overlay subtraction would fragment the refuge",
                        some "REFUGE_FRAGMENTATION"⟩, disk, none⟩
                  else ⟨okResp 200 "success", disk, none⟩
      else ⟨errResp 400 "Invalid overlay geometry", disk, none⟩

/-!  The combined apply endpoint (POST /api/refuges/{id}/apply-overlays,
lines 1248-1453).  -/

/-- Translation of _to_geometries (lines 1282-1293): overlays that are
syntactically (Multi)Polygons with truthy coordinates, parsed and
repaired, nonempty ones kept. -/
def to_geometries : List GeoJSON → List Geom
  | [] => []
  | o :: rest =>
      if (o.gtype = "Polygon" ∨ o.gtype = "MultiPolygon") ∧ o.coordsTruthy = true then
        let g := make_valid_polygonal o.coords
        if g = ∅ then to_geometries rest else g :: to_geometries rest
      else to_geometries rest

/-- The components of the adjoined union that are connected to the
pre-adjoin geometry (lines 1362-1371): nonempty parts that intersect or
touch it. -/
def connectedParts (currentGeom resultGeom : Geom) : List Geom :=
  (components resultGeom).filter
    (fun poly => !decide (poly = ∅) && (intersectsB poly currentGeom || touchesB poly currentGeom))

/-- The connectivity filter of apply_overlay_changes (lines 1359-1391):
on a multi-part union keep only the parts connected to the pre-adjoin
geometry; with no connected part, fall back to the pre-adjoin geometry
(the silent no-op); none encodes the became-empty error of lines
1380-1383. -/
def adjoin_connectivity (currentGeom resultGeom : Geom) : Option Geom :=
  if count_components resultGeom > 1 then
    match connectedParts currentGeom resultGeom with
    | [] => some currentGeom
    | parts =>
        let rg := make_valid_polygonal
          (match parts with
           | [p] => p
           | _ => safe_unary_union parts)
        if rg = ∅ then none else some rg
  else some resultGeom

/-- Translation of apply_overlay_changes (lines 1248-1453). -/
def apply_overlay_changes (disk : List Refuge) (rid : ℤ)
    (adjoinPayload subtractPayload : List GeoJSON) (writeOk : Bool) : Outcome :=
  -- lines 1259-1260
  if adjoinPayload.isEmpty ∧ subtractPayload.isEmpty then
    ⟨errResp 400 "No overlays provided", disk, none⟩
  else
    -- lines 1262-1272
    match findById disk rid with
    | none => ⟨errResp 404 "Refuge not found", disk, none⟩
    | some target =>
      -- lines 1274-1280
      match target.polygon with
      | none => ⟨errResp 500 "Stored refuge geometry is invalid", disk, none⟩
      | some tp =>
        let currentGeom := make_valid_polygonal tp.coords
        if currentGeom = ∅ then ⟨errResp 500 "Stored refuge geometry is empty", disk, none⟩
        else
          -- lines 1295-1296
          let adjoinGeoms0 := to_geometries adjoinPayload
          let subtractGeoms := to_geometries subtractPayload
          -- lines 1298-1334: clean the adjoin overlays against the
          -- unrelated refuges
          let adjoinGeoms :=
            match adjoinGeoms0 with
            | [] => adjoinGeoms0
            | _ => cleanOverlays adjoinGeoms0 (unrelatedGeoms rid disk)
          -- lines 1336-1347: the union used for cross-refuge subtraction
          let adjoinUnionForOthers : Option Geom :=
            match adjoinGeoms with
            | [] => none
            | _ =>
                let u := make_valid_polygonal (safe_unary_union adjoinGeoms)
                if u = ∅ then none else some u
          -- lines 1349-1394: the adjoin phase
          let phase1 : Except Resp Geom :=
            match adjoinGeoms with
            | [] => .ok currentGeom
            | _ =>
                let r0 := safe_unary_union (currentGeom :: adjoinGeoms)
                if r0 = ∅ then .error (errResp 400 "Resulting geometry is empty after adjoin")
                else
                  match adjoin_connectivity currentGeom r0 with
                  | none =>
                      .error (errResp 400
                        "Resulting geometry became empty after filtering disconnected parts")
                  | some rg => .ok rg
          match phase1 with
          | .error e => ⟨e, disk, none⟩
          | .ok g1 =>
            -- lines 1395-1414: the subtract phase, with the fragmentation
            -- rejection of lines 1405-1410
            let phase2 : Except Resp Geom :=
              match subtractGeoms with
              | [] => .ok g1
              | _ =>
                  let d := make_valid_polygonal
                    (subtractGeoms.foldl (fun acc o => safe_difference acc o) g1)
                  if d = ∅ then
                    .error (errResp 400 "Overlay subtraction would remove entire refuge")
                  else
                    if count_components d > 1 then
                      .error ⟨400, false, "Overlay subtraction would fragment the refuge",
                        some "REFUGE_FRAGMENTATION"⟩
                    else .ok d
            match phase2 with
            | .error e => ⟨e, disk, none⟩
            | .ok g2 =>
              -- lines 1416-1418
              let g3 := make_valid_polygonal g2
              if g3 = ∅ then ⟨errResp 400 "Resulting geometry is not a polygon", disk, none⟩
              else
                -- lines 1420-1426
                let target2 : Refuge := { target with polygon := some (shapely_mapping g3) }
                let refuges1 := setById disk rid target2
                -- lines 1428-1446
                let refuges2 :=
                  match adjoinUnionForOthers with
                  | none => refuges1
                  | some au =>
                      restoreTarget
                        (subtract_overlay_from_other_refuges refuges1 target2.id (some au)).1
                        rid target2
                -- lines 1448-1450
                let w := write_refuges disk refuges2 writeOk
                if w.2 then ⟨errResp 500 "Failed to apply overlay changes", w.1, none⟩
                else ⟨okResp 200 "success", w.1, some target2⟩

/-!  Sample data used by the concrete evaluations below.  -/

/-- A 3-cell horizontal bar. -/
def gBar : Geom := {(0,0),(1,0),(2,0)}

/-- A stored refuge whose geometry is the bar. -/
def refBar : Refuge := ⟨some 1, some "a", some ⟨"Polygon", gBar, none⟩⟩

/-- An overlay covering exactly the middle cell of the bar: subtracting it
bisects the bar. -/
def ovMid : GeoJSON := ⟨"Polygon", {(1,0)}, none⟩

/-- A one-cell refuge at the origin. -/
def refA : Refuge := ⟨some 1, some "a", some ⟨"Polygon", {(0,0)}, none⟩⟩

/-- A one-cell refuge away from the origin. -/
def refB : Refuge := ⟨some 2, some "b", some ⟨"Polygon", {(5,5)}, none⟩⟩

/-- An overlay far from the origin: disconnected from refA. -/
def islandOverlay : GeoJSON := ⟨"Polygon", {(5,5)}, none⟩

/-- A one-cell refuge in the middle of the bar. -/
def refMid : Refuge := ⟨some 1, some "m", some ⟨"Polygon", {(1,0)}, none⟩⟩

/-- A candidate create polygon: the bar, first vertex at the origin. -/
def pMid : GeoJSON := ⟨"Polygon", gBar, some (0,0)⟩

/-- The integer ids present in a stored collection, in storage order. -/
def idsOf (refuges : List Refuge) : List ℤ := refuges.filterMap Refuge.id

/-!  Helper lemmas.  -/

/-- Membership in a left fold of unions. -/
theorem mem_foldl_union (l : List Geom) (acc : Geom) (x : Cell) :
    x ∈ l.foldl (fun a b => a ∪ b) acc ↔ x ∈ acc ∨ ∃ g ∈ l, x ∈ g := by
  induction l generalizing acc with
  | nil => simp
  | cons g rest ih =>
      simp only [List.foldl_cons, ih, Finset.mem_union, List.mem_cons]
      constructor
      · rintro (((h | h) | ⟨c, hc, hx⟩))
        · exact Or.inl h
        · exact Or.inr ⟨g, Or.inl rfl, h⟩
        · exact Or.inr ⟨c, Or.inr hc, hx⟩
      · rintro (h | ⟨c, (rfl | hc), hx⟩)
        · exact Or.inl (Or.inl h)
        · exact Or.inl (Or.inr hx)
        · exact Or.inr ⟨c, hc, hx⟩

/-- Membership in _safe_unary_union: exactly the cells of the inputs. -/
theorem mem_safe_unary_union (gs : List Geom) (x : Cell) :
    x ∈ safe_unary_union gs ↔ ∃ g ∈ gs, x ∈ g := by
  have hmem : ∀ g : Geom, (g ∈ gs.filter (fun g => !decide (g = ∅)) ↔ g ∈ gs ∧ g ≠ ∅) := by
    intro g
    simp [List.mem_filter]
  have hiff : (∃ g ∈ gs.filter (fun g => !decide (g = ∅)), x ∈ g) ↔ ∃ g ∈ gs, x ∈ g := by
    constructor
    · rintro ⟨g, hg, hx⟩
      exact ⟨g, ((hmem g).mp hg).1, hx⟩
    · rintro ⟨g, hg, hx⟩
      refine ⟨g, (hmem g).mpr ⟨hg, ?_⟩, hx⟩
      intro he
      rw [he] at hx
      exact absurd hx (Finset.not_mem_empty x)
  rw [← hiff]
  unfold safe_unary_union
  rcases hf : gs.filter (fun g => !decide (g = ∅)) with _ | ⟨g, _ | ⟨g2, rest⟩⟩
  · simp
  · simp
  · rw [mem_foldl_union]
    simp

/-- C6: _safe_unary_union drops empty inputs, returns the empty geometry
when nothing survives, returns a single survivor unchanged, and otherwise
returns the union (cell-wise) of the surviving inputs.  (In the model
every geometry is valid, so the also-dropped invalid inputs of the claim
do not arise, and normalization of a survivor is the identity.) -/
theorem C6_safe_unary_union_cases (gs : List Geom) :
    (gs.filter (fun g => !decide (g = ∅)) = [] → safe_unary_union gs = ∅) ∧
    (∀ g0, gs.filter (fun g => !decide (g = ∅)) = [g0] → safe_unary_union gs = g0) ∧
    (∀ x : Cell, x ∈ safe_unary_union gs ↔ ∃ g ∈ gs, x ∈ g) := by
  refine ⟨fun h => ?_, fun g0 h => ?_, mem_safe_unary_union gs⟩
  · unfold safe_unary_union
    rw [h]
  · unfold safe_unary_union
    rw [h]

/-- Witness for C6 at a concrete list: one empty and one surviving input. -/
theorem C6_witness :
    safe_unary_union [∅, {(0,0)}] = ({(0,0)} : Geom) :=
  (C6_safe_unary_union_cases [∅, {(0,0)}]).2.1 {(0,0)} (by decide)

/-- The per-refuge loop of the cross-refuge subtraction never records the
target id, keeps every refuge whose id equals the target id, and keeps
every refuge whose stored geometry does not intersect the overlay. -/
theorem crossSubtractGo_frame (tid : Option ℤ) (ov : Geom) (l : List Refuge) :
    (∀ i : ℤ, tid = some i → i ∉ (crossSubtractGo tid ov l).2) ∧
    (∀ r ∈ l, r.id = tid → r ∈ (crossSubtractGo tid ov l).1) ∧
    (∀ r ∈ l, ∀ p, r.polygon = some p →
      intersectsB (make_valid_polygonal p.coords) ov = false →
      r ∈ (crossSubtractGo tid ov l).1) := by
  induction l with
  | nil =>
      refine ⟨fun i hi => ?_, fun r hr => absurd hr (List.not_mem_nil r),
        fun r hr => absurd hr (List.not_mem_nil r)⟩
      simp [crossSubtractGo]
  | cons r rs ih =>
      obtain ⟨ih1, ih2, ih3⟩ := ih
      refine ⟨fun i hi => ?_, fun r' hr' hid => ?_, fun r' hr' p hp hint => ?_⟩
      · simp only [crossSubtractGo]
        repeat' split
        all_goals try exact ih1 i hi
        all_goals
          intro hmem
          rcases List.mem_cons.mp hmem with h | h
          · simp_all
          · exact ih1 i hi h
      · rcases List.mem_cons.mp hr' with h | h
        · subst h
          simp only [crossSubtractGo]
          rw [if_pos hid]
          exact List.mem_cons_self _ _
        · simp only [crossSubtractGo]
          repeat' split
          all_goals first
            | exact List.mem_cons_of_mem _ (ih2 r' h hid)
            | exact ih2 r' h hid
      · rcases List.mem_cons.mp hr' with h | h
        · subst h
          simp only [crossSubtractGo]
          repeat' split
          all_goals first
            | exact List.mem_cons_self _ _
            | simp_all
        · simp only [crossSubtractGo]
          repeat' split
          all_goals first
            | exact List.mem_cons_of_mem _ (ih3 r' h p hp hint)
            | exact ih3 r' h p hp hint

/-- C10: the cross-refuge cleanup never modifies, and never lists among
its removed ids, the refuge whose id equals the target id, and every
other refuge whose stored geometry does not intersect the overlay in
the shapely sense — it neither shares cells with it nor touches it — is
passed through with its record (in particular its polygon) unchanged.
Refuges that do intersect (touching ones included) take the subtract
branch of lines 687-717 and have their polygon re-serialized. -/
theorem C10_cross_subtract_frame (refuges : List Refuge) (tid : Option ℤ)
    (overlay : Option Geom) :
    (∀ i : ℤ, tid = some i →
      i ∉ (subtract_overlay_from_other_refuges refuges tid overlay).2) ∧
    (∀ r ∈ refuges, r.id = tid →
      r ∈ (subtract_overlay_from_other_refuges refuges tid overlay).1) ∧
    (∀ r ∈ refuges, ∀ p ov, r.polygon = some p → overlay = some ov →
      intersectsB (make_valid_polygonal p.coords) (make_valid_polygonal ov) = false →
      r ∈ (subtract_overlay_from_other_refuges refuges tid overlay).1) := by
  unfold subtract_overlay_from_other_refuges
  rcases overlay with _ | ov
  · exact ⟨fun i hi => List.not_mem_nil i, fun r hr _ => hr,
      fun r hr p ov hp hov => Option.noConfusion hov⟩
  · simp only []
    split
    · exact ⟨fun i hi => List.not_mem_nil i, fun r hr _ => hr,
        fun r hr p ov' hp hov hint => hr⟩
    · obtain ⟨h1, h2, h3⟩ := crossSubtractGo_frame tid (make_valid_polygonal ov) refuges
      refine ⟨h1, h2, fun r hr p ov' hp hov hint => ?_⟩
      injection hov with e
      subst e
      exact h3 r hr p hp hint

/-- Witness for C10 at a concrete collection: the target (id 1) is kept
and not removed, and the non-intersecting refuge with id 2 is passed
through unchanged. -/
theorem C10_witness :
    (1 : ℤ) ∉ (subtract_overlay_from_other_refuges [refA, refB] (some 1)
      (some ({(0,0)} : Geom))).2 ∧
    refA ∈ (subtract_overlay_from_other_refuges [refA, refB] (some 1)
      (some ({(0,0)} : Geom))).1 ∧
    refB ∈ (subtract_overlay_from_other_refuges [refA, refB] (some 1)
      (some ({(0,0)} : Geom))).1 :=
  ⟨(C10_cross_subtract_frame [refA, refB] (some 1) (some {(0,0)})).1 1 rfl,
   (C10_cross_subtract_frame [refA, refB] (some 1) (some {(0,0)})).2.1 refA
     (by decide) (by decide),
   (C10_cross_subtract_frame [refA, refB] (some 1) (some {(0,0)})).2.2 refB
     (by decide) ⟨"Polygon", {(5,5)}, none⟩ {(0,0)} (by decide) rfl (by decide)⟩

/-- C9: validate-overlay normalizes the operation string by stripping and
lowercasing before comparing with "subtract"; any other value is rejected
with 400 "Unsupported operation" before the stored collection or the
refuge id is consulted (the outcome is the same for every disk and id,
nonexistent ids included), and a whitespace/case variant of "subtract"
behaves exactly like "subtract" itself. -/
theorem C9_validate_operation_gate :
    (∀ (disk : List Refuge) (rid : ℤ) (payload : ValidatePayload),
      pyLower (pyStrip (payload.operation.getD "")) ≠ "subtract" →
      validate_overlay_operation disk rid payload =
        ⟨errResp 400 "Unsupported operation", disk, none⟩) ∧
    (∀ (disk : List Refuge) (rid : ℤ) (o : Option GeoJSON) (s : String),
      pyLower (pyStrip s) = "subtract" →
      validate_overlay_operation disk rid ⟨o, some s⟩ =
        validate_overlay_operation disk rid ⟨o, some "subtract"⟩) := by
  constructor
  · intro disk rid payload h
    unfold validate_overlay_operation
    rw [if_pos h]
  · intro disk rid o s h
    unfold validate_overlay_operation
    simp only [Option.getD_some]
    rw [h]
    have h2 : pyLower (pyStrip "subtract") = "subtract" := by decide
    rw [h2]

/-- Witness for C9: "adjoin" rejected with 400 on a nonexistent id, and
" SUBTRACT " accepted like "subtract". -/
theorem C9_witness :
    validate_overlay_operation [] 99 ⟨none, some "adjoin"⟩ =
      ⟨errResp 400 "Unsupported operation", [], none⟩ ∧
    validate_overlay_operation [refBar] 1 ⟨some ovMid, some " SUBTRACT "⟩ =
      validate_overlay_operation [refBar] 1 ⟨some ovMid, some "subtract"⟩ :=
  ⟨C9_validate_operation_gate.1 [] 99 ⟨none, some "adjoin"⟩ (by decide),
   C9_validate_operation_gate.2 [refBar] 1 (some ovMid) " SUBTRACT " (by decide)⟩

/-- C7 (amended): the dry run never touches the persisted collection on
any path, and on a fragmenting subtract input it returns the 400 response
with the machine-readable code REFUGE_FRAGMENTATION.  (Its counterexample
shows this error does not match the standalone subtract endpoint, which
commits such an input.) -/
theorem C7_amended :
    (∀ (disk : List Refuge) (rid : ℤ) (payload : ValidatePayload),
      (validate_overlay_operation disk rid payload).disk = disk) ∧
    (∀ (disk : List Refuge) (rid : ℤ) (o : GeoJSON) (target : Refuge) (tp : GeoJSON),
      (o.gtype = "Polygon" ∨ o.gtype = "MultiPolygon") →
      findById disk rid = some target →
      target.polygon = some tp →
      tp.coords ≠ ∅ →
      o.coords ≠ ∅ →
      tp.coords \ o.coords ≠ ∅ →
      count_components (tp.coords \ o.coords) > 1 →
      (validate_overlay_operation disk rid ⟨some o, some "subtract"⟩).resp =
        ⟨400, false, "Overlay subtraction would fragment the refuge",
          some "REFUGE_FRAGMENTATION"⟩) := by
  constructor
  · intro disk rid payload
    simp only [validate_overlay_operation]
    repeat' split
    all_goals rfl
  · intro disk rid o target tp hok hfind hpoly hcur hog hdiff hfrag
    simp only [validate_overlay_operation, make_valid_polygonal, safe_difference,
      Option.getD_some]
    rw [if_neg (by decide), if_pos hok, hfind]
    simp only []
    rw [hpoly]
    simp only []
    rw [if_neg hcur, if_neg hog, if_neg hdiff, if_pos hfrag]

/-- Witness for C7 (amended) at the bar refuge and the bisecting overlay. -/
theorem C7_amended_witness :
    (validate_overlay_operation [refBar] 1 ⟨some ovMid, some "subtract"⟩).disk = [refBar] ∧
    (validate_overlay_operation [refBar] 1 ⟨some ovMid, some "subtract"⟩).resp =
      ⟨400, false, "Overlay subtraction would fragment the refuge",
        some "REFUGE_FRAGMENTATION"⟩ :=
  ⟨C7_amended.1 [refBar] 1 ⟨some ovMid, some "subtract"⟩,
   C7_amended.2 [refBar] 1 ovMid refBar ⟨"Polygon", gBar, none⟩ (by decide) (by decide)
     (by decide) (by decide) (by decide) (by decide) (by decide)⟩

/-- C7 fails as stated: on the same fragmenting input the dry run reports
the typed FragmentationError (400, code REFUGE_FRAGMENTATION) while the
real subtract endpoint reports success and commits, so the dry run does
not return the same typed error the real subtract operation produces. -/
theorem C7_counterexample :
    (validate_overlay_operation [refBar] 1 ⟨some ovMid, some "subtract"⟩).resp =
      ⟨400, false, "Overlay subtraction would fragment the refuge",
        some "REFUGE_FRAGMENTATION"⟩ ∧
    (subtract_overlays [refBar] 1 [ovMid] true).resp = okResp 200 "success" := by decide

/-- C1 fails as stated: subtracting the middle cell of the 3-cell bar
refuge bisects it (the result {(0,0),(2,0)} has two components), yet the
subtract endpoint responds 200 success with no FRAGMENTATION code and
commits the fragmented geometry, changing the persisted collection. -/
theorem C1_counterexample :
    subtract_overlays [refBar] 1 [ovMid] true =
      ⟨okResp 200 "success",
       [⟨some 1, some "a", some ⟨"MultiPolygon", {(0,0),(2,0)}, none⟩⟩],
       some ⟨some 1, some "a", some ⟨"MultiPolygon", {(0,0),(2,0)}, none⟩⟩⟩ ∧
    count_components ({(0,0),(2,0)} : Geom) = 2 := by decide

/-- C1 (amended): the fragmentation rejection lives in the subtract phase
of apply-overlays (and in validate-overlay), not in the standalone
subtract endpoint: when the sequential subtraction leaves more than one
component, apply-overlays answers 400 with code REFUGE_FRAGMENTATION and
the persisted collection is left unchanged. -/
theorem C1_amended_fragmentation (disk : List Refuge) (rid : ℤ) (o : GeoJSON)
    (target : Refuge) (tp : GeoJSON) (writeOk : Bool)
    (hok : (o.gtype = "Polygon" ∨ o.gtype = "MultiPolygon") ∧ o.coordsTruthy = true)
    (hfind : findById disk rid = some target)
    (hpoly : target.polygon = some tp)
    (hcur : tp.coords ≠ ∅)
    (hdiff : tp.coords \ o.coords ≠ ∅)
    (hfrag : count_components (tp.coords \ o.coords) > 1) :
    apply_overlay_changes disk rid [] [o] writeOk =
      ⟨⟨400, false, "Overlay subtraction would fragment the refuge",
        some "REFUGE_FRAGMENTATION"⟩, disk, none⟩ := by
  have ho : ¬ o.coords = ∅ := by
    have h2 := hok.2
    simp only [GeoJSON.coordsTruthy, Bool.not_eq_true', decide_eq_false_iff_not] at h2
    exact h2
  simp only [apply_overlay_changes, to_geometries, make_valid_polygonal, safe_difference]
  rw [if_neg (by simp), hfind]
  simp only []
  rw [hpoly]
  simp only []
  rw [if_neg hcur, if_pos hok, if_neg ho]
  simp only [List.foldl_cons, List.foldl_nil]
  rw [if_neg hdiff, if_pos hfrag]

/-- Witness for C1 (amended) at the bar refuge and the bisecting overlay. -/
theorem C1_amended_witness :
    apply_overlay_changes [refBar] 1 [] [ovMid] true =
      ⟨⟨400, false, "Overlay subtraction would fragment the refuge",
        some "REFUGE_FRAGMENTATION"⟩, [refBar], none⟩ :=
  C1_amended_fragmentation [refBar] 1 ovMid refBar ⟨"Polygon", gBar, none⟩ true
    (by decide) (by decide) (by decide) (by decide) (by decide) (by decide)

/-- Every connected part is nonempty (it passed the is_empty filter). -/
theorem connectedParts_nonempty {cur g p : Geom} (h : p ∈ connectedParts cur g) :
    p ≠ ∅ := by
  unfold connectedParts at h
  have h2 := (List.mem_filter.mp h).2
  intro he
  subst he
  simp at h2

/-- C4 fails as stated: adjoining the far island overlay to the one-cell
refuge produces a two-component union, the island neither intersects nor
touches the pre-adjoin geometry, yet the adjoin endpoint keeps both
components (the stored geometry is the full MultiPolygon) and reports
success, so no connectivity filtering happened. -/
theorem C4_counterexample :
    adjoin_overlays [refA] 1 [islandOverlay] true =
      ⟨okResp 200 "success",
       [⟨some 1, some "a", some ⟨"MultiPolygon", {(0,0),(5,5)}, none⟩⟩],
       some ⟨some 1, some "a", some ⟨"MultiPolygon", {(0,0),(5,5)}, none⟩⟩⟩ ∧
    intersectsB {(5,5)} {(0,0)} = false ∧
    touchesB {(5,5)} {(0,0)} = false := by decide

/-- C4 (amended): the connectivity filter belongs to apply-overlays, not
to the standalone adjoin endpoint.  When the adjoined union is
multi-part, the filter keeps exactly the cells of the components that
intersect or touch the pre-adjoin geometry, and when no component is
connected it falls back to the pre-adjoin geometry with no error; at the
concrete island input, apply-overlays succeeds and stores only the
connected component. -/
theorem C4_amended_connectivity (currentGeom resultGeom : Geom)
    (hmulti : count_components resultGeom > 1) :
    (connectedParts currentGeom resultGeom = [] →
      adjoin_connectivity currentGeom resultGeom = some currentGeom) ∧
    (connectedParts currentGeom resultGeom ≠ [] →
      ∃ g, adjoin_connectivity currentGeom resultGeom = some g ∧
        ∀ x : Cell, x ∈ g ↔ ∃ p ∈ connectedParts currentGeom resultGeom, x ∈ p) ∧
    ((apply_overlay_changes [refA] 1 [islandOverlay] [] true).resp.ok = true ∧
      ((apply_overlay_changes [refA] 1 [islandOverlay] [] true).refuge.bind
        Refuge.polygon).map GeoJSON.coords = some {(0,0)}) := by
  refine ⟨fun h => ?_, fun hne => ?_, by decide, by decide⟩
  · unfold adjoin_connectivity
    rw [if_pos hmulti, h]
  · rcases hcp : connectedParts currentGeom resultGeom with _ | ⟨p, ps⟩
    · exact absurd hcp hne
    · have hpmem : p ∈ connectedParts currentGeom resultGeom := by
        rw [hcp]; exact List.mem_cons_self _ _
      have hpne : p ≠ ∅ := connectedParts_nonempty hpmem
      unfold adjoin_connectivity
      rw [if_pos hmulti, hcp]
      rcases ps with _ | ⟨q, qs⟩
      · refine ⟨p, ?_, ?_⟩
        · simp only [make_valid_polygonal]
          rw [if_neg hpne]
        · intro x
          simp
      · obtain ⟨c, hc⟩ := Finset.nonempty_iff_ne_empty.mpr hpne
        have hu : c ∈ safe_unary_union (p :: q :: qs) := by
          rw [mem_safe_unary_union]
          exact ⟨p, List.mem_cons_self _ _, hc⟩
        have hune : safe_unary_union (p :: q :: qs) ≠ ∅ := by
          intro he
          rw [he] at hu
          exact absurd hu (Finset.not_mem_empty c)
        refine ⟨safe_unary_union (p :: q :: qs), ?_, ?_⟩
        · simp only [make_valid_polygonal]
          rw [if_neg hune]
        · intro x
          rw [mem_safe_unary_union]

/-- Witness for C4 (amended): the multi-part union of the origin cell and
the island, filtered against the origin cell. -/
theorem C4_amended_witness :
    ∃ g, adjoin_connectivity ({(0,0)} : Geom) ({(0,0),(5,5)} : Geom) = some g ∧
      ∀ x : Cell, x ∈ g ↔ ∃ p ∈ connectedParts ({(0,0)} : Geom) ({(0,0),(5,5)} : Geom), x ∈ p :=
  (C4_amended_connectivity {(0,0)} {(0,0),(5,5)} (by decide)).2.1 (by decide)

/-- C2 (amended): a failed physical write is caught and logged inside
_write_refuges, so create leaves the previously persisted collection
intact and its response is identical to the response of the same call
with a working write — in particular a run that would commit still
reports 201 success, and no StorageError reaches the caller. -/
theorem C2_amended (disk : List Refuge) (payload : CreatePayload) :
    (create_refuge disk payload false).resp = (create_refuge disk payload true).resp ∧
    (create_refuge disk payload false).disk = disk := by
  simp only [create_refuge]
  repeat' split
  all_goals simp_all [write_refuges]

/-- C2 fails as stated: creating a refuge over the empty collection with
a failing write leaves the previous persisted state ([]) intact but the
operation reports 201 success, not a StorageError. -/
theorem C2_counterexample :
    (create_refuge [] ⟨some "a", some ⟨"Polygon", {(0,0)}, some (0,0)⟩⟩ false).resp =
      okResp 201 "success" ∧
    (create_refuge [] ⟨some "a", some ⟨"Polygon", {(0,0)}, some (0,0)⟩⟩ false).disk = [] := by
  decide

/-- Shape of a successful create: the refuge carried by the response has
id nextId, the stripped incoming name, and a geometry that, when the
carve-and-subtract result was multi-part and the first vertex was
available, was chosen by create_select from the components of that
result. -/
theorem create_refuge_success_shape (disk : List Refuge) (payload : CreatePayload)
    (w : Bool) (r : Refuge)
    (h : (create_refuge disk payload w).refuge = some r) :
    ∃ p fg, payload.polygon = some p ∧
      r = ⟨some (nextId disk), some (pyStrip (payload.name.getD "")),
            some (shapely_mapping fg)⟩ ∧
      (∀ fv, count_components (create_geometry disk (make_valid_polygonal p.coords)) > 1 →
        p.firstVertex = some fv →
        create_select (components (create_geometry disk (make_valid_polygonal p.coords))) fv
          = some fg) := by
  have hw : ∀ (a b : List Refuge), (write_refuges a b w).2 = false := by
    intro a b
    cases w <;> simp [write_refuges]
  simp only [create_refuge] at h
  rcases hp : payload.polygon with _ | p
  · rw [hp] at h
    simp at h
  · rw [hp] at h
    simp only [] at h
    split at h
    · split at h
      · simp at h
      · split at h
        · simp at h
        · split at h
          · simp at h
          · split at h
            · simp at h
            · rename_i fg hfin
              rw [hw] at h
              simp only [Bool.false_eq_true, if_false] at h
              injection h with h
              refine ⟨p, fg, rfl, h.symm, ?_⟩
              intro fv hc hfv
              rw [if_pos hc] at hfin
              split at hfin
              · rename_i hnone
                rw [hfv] at hnone
                exact Option.noConfusion hnone
              · rename_i fv2 hfv2
                rw [hfv] at hfv2
                injection hfv2 with e
                subst e
                split at hfin
                · rename_i k hsel
                  by_cases hk : k = ∅
                  · rw [if_pos hk] at hfin
                    exact Option.noConfusion hfin
                  · rw [if_neg hk] at hfin
                    injection hfin with e2
                    rw [hsel, e2]
                · exact Option.noConfusion hfin
    · simp at h

/-- C3 fails as stated: ids are assigned from the last stored entry, so
deleting the region with the highest id (here id 2) and creating a new
region reuses id 2 — an id is reused after its region is deleted. -/
theorem C3_counterexample :
    (delete_refuge [refA, refB] 2 true).disk = [refA] ∧
    ((create_refuge [refA] ⟨some "c", some ⟨"Polygon", {(9,9)}, some (9,9)⟩⟩ true).refuge.bind
      Refuge.id) = some 2 := by decide

/-- C3 (amended): the new id is last-stored-id + 1 (nextId), which equals
max(existing ids) + 1 — strictly greater than every stored id, hence
fresh — whenever the stored ids appear in increasing order (the order the
API itself maintains), is positive when all stored ids are, and is 1 on
the empty collection; but after deleting the highest-id region the id is
reused (see the counterexample). -/
theorem C3_amended (disk : List Refuge) (payload : CreatePayload) (w : Bool) (r : Refuge)
    (hall : ∀ x ∈ disk, x.id.isSome = true)
    (hsorted : (idsOf disk).Pairwise (· < ·))
    (hpos : ∀ i ∈ idsOf disk, 0 < i)
    (h : (create_refuge disk payload w).refuge = some r) :
    r.id = some (nextId disk) ∧
    0 < nextId disk ∧
    (∀ i ∈ idsOf disk, i < nextId disk) ∧
    (disk = [] → nextId disk = 1) := by
  obtain ⟨p, fg, hp, hr, _⟩ := create_refuge_success_shape disk payload w r h
  have hid : r.id = some (nextId disk) := by rw [hr]
  rcases disk.eq_nil_or_concat' with hnil | ⟨L, x, hcat⟩
  · subst hnil
    refine ⟨hid, by simp [nextId], ?_, fun _ => rfl⟩
    intro i hi
    simp [idsOf] at hi
  · subst hcat
    have hx : x ∈ L ++ [x] := by simp
    obtain ⟨i, hxi⟩ := Option.isSome_iff_exists.mp (hall x hx)
    have hnext : nextId (L ++ [x]) = i + 1 := by
      unfold nextId
      rw [List.getLast?_concat]
      simp [hxi]
    have hids : idsOf (L ++ [x]) = idsOf L ++ [i] := by
      unfold idsOf
      rw [List.filterMap_append]
      simp [hxi]
    have hlt : ∀ j ∈ idsOf L, j < i := by
      rw [hids] at hsorted
      have := List.pairwise_append.mp hsorted
      intro j hj
      exact this.2.2 j hj i (List.mem_singleton_self i)
    have himem : i ∈ idsOf (L ++ [x]) := by
      rw [hids]
      simp
    refine ⟨hid, ?_, ?_, ?_⟩
    · have := hpos i himem
      omega
    · intro j hj
      rw [hids] at hj
      rcases List.mem_append.mp hj with hj | hj
      · have := hlt j hj
        omega
      · rw [List.mem_singleton.mp hj]
        omega
    · intro he
      exact absurd he (by simp)

/-- Witness for C3 (amended) at the two-refuge collection with ids 1, 2:
the created id is nextId = 3 = max + 1. -/
theorem C3_amended_witness :
    (⟨some 3, some "c", some ⟨"Polygon", {(9,9)}, none⟩⟩ : Refuge).id =
      some (nextId [refA, refB]) ∧
    0 < nextId [refA, refB] ∧
    (∀ i ∈ idsOf [refA, refB], i < nextId [refA, refB]) ∧
    ([refA, refB] = ([] : List Refuge) → nextId [refA, refB] = 1) :=
  C3_amended [refA, refB] ⟨some "c", some ⟨"Polygon", {(9,9)}, some (9,9)⟩⟩ true
    ⟨some 3, some "c", some ⟨"Polygon", {(9,9)}, none⟩⟩
    (by decide) (by decide) (by decide) (by decide)

/-- The nearest-component loop returns a minimizer: an element of the
list (or the running best) whose distance to the point is at most the
distance of every element and of the running best. -/
theorem pickNearestGo_spec (p : Cell) :
    ∀ (l : List Geom) (b : Option Geom) (k : Geom),
      pickNearestGo p b l = some k →
      (k ∈ l ∨ b = some k) ∧
      (∀ c ∈ l, geomDistSq k p ≤ geomDistSq c p) ∧
      (∀ b0, b = some b0 → geomDistSq k p ≤ geomDistSq b0 p) := by
  intro l
  induction l with
  | nil =>
      intro b k h
      simp only [pickNearestGo] at h
      refine ⟨Or.inr h, fun c hc => absurd hc (List.not_mem_nil c), fun b0 hb0 => ?_⟩
      rw [h] at hb0
      injection hb0 with e
      rw [e]
  | cons poly rest ih =>
      intro b k h
      rcases b with _ | b0
      · simp only [pickNearestGo] at h
        obtain ⟨hmem, hall, hbest⟩ := ih (some poly) k h
        refine ⟨?_, ?_, fun b0 hb0 => Option.noConfusion hb0⟩
        · rcases hmem with hm | hm
          · exact Or.inl (List.mem_cons_of_mem _ hm)
          · injection hm with e
            exact Or.inl (e ▸ List.mem_cons_self _ _)
        · intro c hc
          rcases List.mem_cons.mp hc with hc | hc
          · exact hc ▸ hbest poly rfl
          · exact hall c hc
      · simp only [pickNearestGo] at h
        by_cases hlt : geomDistSq poly p < geomDistSq b0 p
        · rw [if_pos hlt] at h
          obtain ⟨hmem, hall, hbest⟩ := ih (some poly) k h
          refine ⟨?_, ?_, ?_⟩
          · rcases hmem with hm | hm
            · exact Or.inl (List.mem_cons_of_mem _ hm)
            · injection hm with e
              exact Or.inl (e ▸ List.mem_cons_self _ _)
          · intro c hc
            rcases List.mem_cons.mp hc with hc | hc
            · exact hc ▸ hbest poly rfl
            · exact hall c hc
          · intro b1 hb1
            injection hb1 with e
            subst e
            exact le_of_lt (lt_of_le_of_lt (hbest poly rfl) hlt)
        · rw [if_neg hlt] at h
          obtain ⟨hmem, hall, hbest⟩ := ih (some b0) k h
          refine ⟨?_, ?_, ?_⟩
          · rcases hmem with hm | hm
            · exact Or.inl (List.mem_cons_of_mem _ hm)
            · exact Or.inr hm
          · intro c hc
            rcases List.mem_cons.mp hc with hc | hc
            · exact hc ▸ le_trans (hbest b0 rfl) (le_of_not_lt hlt)
            · exact hall c hc
          · intro b1 hb1
            injection hb1 with e
            subst e
            exact hbest _ rfl

/-- create_select returns a member component; it contains the first
vertex whenever some component does, and otherwise it minimizes the
distance to the first vertex. -/
theorem create_select_spec {comps : List Geom} {p : Cell} {k : Geom}
    (h : create_select comps p = some k) :
    k ∈ comps ∧
    ((∃ c ∈ comps, p ∈ c) → p ∈ k) ∧
    ((∀ c ∈ comps, p ∉ c) → ∀ c ∈ comps, geomDistSq k p ≤ geomDistSq c p) := by
  unfold create_select at h
  rcases hfc : firstContaining comps p with _ | k0
  · rw [hfc] at h
    simp only [] at h
    obtain ⟨hmem, hall, _⟩ := pickNearestGo_spec p comps none k h
    have hnone : ∀ c ∈ comps, p ∉ c := by
      intro c hc
      have := List.find?_eq_none.mp hfc c hc
      simpa using this
    refine ⟨?_, fun hex => ?_, fun _ => hall⟩
    · rcases hmem with hm | hm
      · exact hm
      · exact Option.noConfusion hm
    · obtain ⟨c, hc, hpc⟩ := hex
      exact absurd hpc (hnone c hc)
  · rw [hfc] at h
    simp only [] at h
    injection h with e
    subst e
    have hmem := List.mem_of_find?_eq_some hfc
    have hpk : p ∈ k0 := by
      have := List.find?_some hfc
      simpa using this
    exact ⟨hmem, fun _ => hpk, fun hnone _ _ => absurd hpk (hnone k0 hmem)⟩

/-- C5: when the carve-and-subtract result of create is a MultiPolygon
and the first vertex of the original input ring is available, the stored
geometry is exactly one member component of that result: the component
containing the first vertex when one does (the contains-or-boundary-
epsilon test is cell membership in the model), otherwise a component at
minimum distance from the first vertex; all other components are
discarded. -/
theorem C5_create_component_selection (disk : List Refuge) (payload : CreatePayload)
    (p : GeoJSON) (fv : Cell) (r : Refuge) (w : Bool)
    (hp : payload.polygon = some p)
    (hfv : p.firstVertex = some fv)
    (hmulti : count_components (create_geometry disk (make_valid_polygonal p.coords)) > 1)
    (h : (create_refuge disk payload w).refuge = some r) :
    ∃ k ∈ components (create_geometry disk (make_valid_polygonal p.coords)),
      r.polygon = some (shapely_mapping k) ∧
      ((∃ c ∈ components (create_geometry disk (make_valid_polygonal p.coords)), fv ∈ c) →
        fv ∈ k) ∧
      ((∀ c ∈ components (create_geometry disk (make_valid_polygonal p.coords)), fv ∉ c) →
        ∀ c ∈ components (create_geometry disk (make_valid_polygonal p.coords)),
          geomDistSq k fv ≤ geomDistSq c fv) := by
  obtain ⟨p2, fg, hp2, hr, hsel⟩ := create_refuge_success_shape disk payload w r h
  rw [hp] at hp2
  injection hp2 with e
  subst e
  have hselect := hsel fv hmulti hfv
  obtain ⟨hmem, hcontain, hnear⟩ := create_select_spec hselect
  exact ⟨fg, hmem, by rw [hr], hcontain, hnear⟩

/-- Witness for C5: creating the bar over a stored middle-cell refuge
splits the candidate into {(0,0)} and {(2,0)}; the component containing
the first vertex (0,0) is kept and stored. -/
theorem C5_witness :
    ∃ k ∈ components (create_geometry [refMid] (make_valid_polygonal pMid.coords)),
      (⟨some 2, some "c", some ⟨"Polygon", {(0,0)}, none⟩⟩ : Refuge).polygon =
        some (shapely_mapping k) ∧
      ((∃ c ∈ components (create_geometry [refMid] (make_valid_polygonal pMid.coords)),
          (0,0) ∈ c) → ((0:ℤ),(0:ℤ)) ∈ k) ∧
      ((∀ c ∈ components (create_geometry [refMid] (make_valid_polygonal pMid.coords)),
          ((0:ℤ),(0:ℤ)) ∉ c) →
        ∀ c ∈ components (create_geometry [refMid] (make_valid_polygonal pMid.coords)),
          geomDistSq k (0,0) ≤ geomDistSq c (0,0)) :=
  C5_create_component_selection [refMid] ⟨some "c", some pMid⟩ pMid (0,0)
    ⟨some 2, some "c", some ⟨"Polygon", {(0,0)}, none⟩⟩ true
    rfl rfl (by decide) (by decide)

/-- C8 fails as stated: with refuge "a" already stored, a create request
reusing the name "a" but carrying no polygon is answered 400 "Invalid
polygon" — the polygon syntax check of line 739 runs before the name
checks of lines 744-749, so the promised 409 ConflictError is not
produced. -/
theorem C8_counterexample :
    create_refuge [refA] ⟨some "a", none⟩ true =
      ⟨errResp 400 "Invalid polygon", [refA], none⟩ := by decide

/-- C8 (amended): the polygon syntax check precedes the name checks; for
requests whose polygon is syntactically a Polygon with coordinates, an
empty trimmed name is rejected 400 and a (case-insensitively) duplicate
name is rejected 409, in both cases before any geometry processing, with
the stored collection unchanged and no refuge added. -/
theorem C8_amended (disk : List Refuge) (payload : CreatePayload) (p : GeoJSON)
    (hp : payload.polygon = some p)
    (hsyn : p.gtype = "Polygon" ∧ p.coordsTruthy = true) :
    (pyStrip (payload.name.getD "") = "" →
      create_refuge disk payload true = ⟨errResp 400 "Name is required", disk, none⟩) ∧
    (pyStrip (payload.name.getD "") ≠ "" →
      (disk.any (fun r =>
        pyLower (pyStrip (r.name.getD "")) == pyLower (pyStrip (payload.name.getD "")))) = true →
      create_refuge disk payload true =
        ⟨errResp 409 "A refuge with this name already exists", disk, none⟩) := by
  constructor
  · intro hname
    simp only [create_refuge]
    rw [hp]
    simp only []
    rw [if_pos hsyn, if_pos hname]
  · intro hname hdup
    simp only [create_refuge]
    rw [hp]
    simp only []
    rw [if_pos hsyn, if_neg hname, if_pos hdup]

/-- Witness for C8 (amended): " A " duplicates the stored name "a" after
stripping and lowercasing, and the polygon is syntactically valid. -/
theorem C8_witness :
    create_refuge [refA] ⟨some " A ", some pMid⟩ true =
      ⟨errResp 409 "A refuge with this name already exists", [refA], none⟩ :=
  (C8_amended [refA] ⟨some " A ", some pMid⟩ pMid rfl (by decide)).2 (by decide) (by decide)
